import Mathlib

/-!
# Verification of `describe_aws_resource.py`

A shallow embedding of the classification and describe logic of the
`describe_aws_resource.py` tool, together with theorems settling the
specification claims about it.

Strings are modelled as `List Char`.  The Python regular expressions used by
the tool are deterministic (their groups are forced by the surrounding
separators), so each one is embedded as an explicit first-order matcher.
The S3 URL regex models Python's `$` anchor exactly: it matches at the end
of the string or just before a single trailing newline.  The ARN regex's `$`
is modelled as plain end-of-string; the ARN properties below quantify only
over newline-free ARNs, where the two readings coincide.  The character
classes `\d`, `\S`, `\w` are modelled over ASCII (the tool is only ever
exercised on ASCII identifiers).  Python exceptions are modelled by an
explicit error type, and `sys.exit(n)` / falling off the end of a function
are modelled by explicit outcome constructors.
-/

set_option autoImplicit false

deriving instance DecidableEq for Except

namespace DescribeAws

/-- Strings of the embedded program, modelled as lists of characters. -/
abbrev Str := List Char

/-- Coerce a Lean string literal to the embedded string type. -/
def str (s : String) : Str := s.data

/-- Membership of Python's `\s` class (ASCII part): the characters treated as
whitespace by the regexes in the source. -/
def isPySpace (c : Char) : Bool :=
  c = ' ' || c = '\t' || c = '\n' || c = '\r' || c = '\x0b' || c = '\x0c'

/-- Membership of Python's `\d` class (ASCII part). -/
def isDigitB (c : Char) : Bool :=
  '0' ≤ c && c ≤ '9'

/-- Membership of Python's `[-\w]` class (ASCII part), used by the bare-name
fallback regex `[-\w]+\.[-\w]+[\.]*`. -/
def isWordHyphen (c : Char) : Bool :=
  c = '-' || c = '_' || ('a' ≤ c && c ≤ 'z') || ('A' ≤ c && c ≤ 'Z') ||
    ('0' ≤ c && c ≤ '9')

/-- Strip a leading pattern from a string: `stripLead p s = some t` exactly
when `s = p ++ t`.  This models both Python's `str.startswith` and the
anchored literal part of a regex. -/
def stripLead : Str → Str → Option Str
  | [], s => some s
  | _ :: _, [] => none
  | p :: ps, c :: cs => if c = p then stripLead ps cs else none

/-- Python's `str.endswith`. -/
def endsWith (suf s : Str) : Bool :=
  (stripLead suf.reverse s.reverse).isSome

/-- Split a string at the first occurrence of a separator character; `none`
when the separator does not occur.  This models a regex group `[^c]*`
followed by a literal `c`. -/
def splitFirst (sep : Char) : Str → Option (Str × Str)
  | [] => none
  | c :: rest =>
    if c = sep then some ([], rest)
    else
      match splitFirst sep rest with
      | none => none
      | some (a, b) => some (c :: a, b)

/-- Python's `str.split(sep)` for a one-character separator: splits at every
occurrence of the separator.  `pySplit c "" = [""]`, matching Python. -/
def pySplit (sep : Char) : Str → List Str
  | [] => [[]]
  | c :: rest =>
    if c = sep then [] :: pySplit sep rest
    else
      match pySplit sep rest with
      | [] => [[c]]
      | p :: ps => (c :: p) :: ps

/-- Rejoin the parts produced by `pySplit`, the inverse used to state its
specification. -/
def unsplit (sep : Char) : List Str → Str
  | [] => []
  | [p] => p
  | p :: q :: ps => p ++ sep :: unsplit sep (q :: ps)

/-- The `name` field of a resource descriptor: a plain string, or (for S3
objects only) the two-element list `[bucket, key]`. -/
inductive RName where
  | str : Str → RName
  | pair : Str → Str → RName
deriving DecidableEq

/-- An opaque Route 53 record-set payload: its `Name` field plus the rest of
the record, abstracted to a number. -/
structure RecordSet where
  rname : Str
  payload : Nat
deriving DecidableEq

/-- The resource descriptor dictionary produced by the classifier
(`type` / `sub_type` / `name`, plus `data` on Route 53 record hits). -/
structure Resource where
  type : Str
  subType : Option Str
  name : RName
  data : Option RecordSet := none
deriving DecidableEq

/-- The exceptions the embedded code can raise.  `valueErrorInvalidArn` is the
explicit `raise ValueError(f"Invalid ARN: {arn}")`; `valueErrorUnpack` is the
`ValueError` raised by tuple unpacking when `str.split` does not yield exactly
two parts; `attributeErrorNoneType` is the `AttributeError` raised by calling
`.groupdict()` on a failed (`None`) regex match; `clientError` is a boto
`ClientError` carrying its error code; `otherException` is any non-`ClientError`
exception from an AWS call; `indexError` is a sequence-index failure. -/
inductive PyExc where
  | valueErrorInvalidArn : Str → PyExc
  | valueErrorUnpack : PyExc
  | attributeErrorNoneType : PyExc
  | clientError : Str → PyExc
  | otherException : Str → PyExc
  | indexError : PyExc
deriving DecidableEq

/-- The groups of the ARN regex
`^arn:aws:(?P<service>[^:]+):(?P<region>[^:]*):(?P<account>\d*):(?P<resource>\S+)$`. -/
structure ArnGroups where
  service : Str
  region : Str
  account : Str
  resource : Str
deriving DecidableEq

/-- The ARN regex of `parse_arn`.  The groups are forced: `service`, `region`
and `account` cannot contain `:` and each is followed by a literal `:`, so
they are the segments before the first three colons after `arn:aws:`, and
`resource` is the nonempty, whitespace-free remainder (which may itself
contain colons). -/
def arnMatch (arn : Str) : Option ArnGroups :=
  match stripLead (str "arn:aws:") arn with
  | none => none
  | some rest =>
    match splitFirst ':' rest with
    | none => none
    | some (service, r1) =>
      match splitFirst ':' r1 with
      | none => none
      | some (region, r2) =>
        match splitFirst ':' r2 with
        | none => none
        | some (account, resource) =>
          if !service.isEmpty && account.all isDigitB && !resource.isEmpty &&
              resource.all (fun c => !isPySpace c)
          then some ⟨service, region, account, resource⟩
          else none

/-- Embedding of `parse_arn` (source lines 45-78).  On a regex match the
`type` is the service; `ec2` resources are `split("/")` and unpacked into
`(sub_type, name)` (a `ValueError` if the split does not yield exactly two
parts), `rds` likewise with `":"`, `s3` gets `sub_type = "bucket"` and the
resource verbatim, and any other service passes the resource through with
`sub_type = None`.  On a failed match it raises `ValueError("Invalid ARN: ...")`. -/
def parse_arn (arn : Str) : Except PyExc Resource :=
  match arnMatch arn with
  | none => Except.error (PyExc.valueErrorInvalidArn arn)
  | some g =>
    if g.service = str "ec2" then
      match pySplit '/' g.resource with
      | [sub, nm] => Except.ok ⟨str "ec2", some sub, RName.str nm, none⟩
      | _ => Except.error PyExc.valueErrorUnpack
    else if g.service = str "rds" then
      match pySplit ':' g.resource with
      | [sub, nm] => Except.ok ⟨str "rds", some sub, RName.str nm, none⟩
      | _ => Except.error PyExc.valueErrorUnpack
    else if g.service = str "s3" then
      Except.ok ⟨str "s3", some (str "bucket"), RName.str g.resource, none⟩
    else
      Except.ok ⟨g.service, none, RName.str g.resource, none⟩

/-- The S3 URL regex `s3://(?P<bucket>[^/]+)/?(?P<key>\S+)?$` of
`parse_s3_url`.  `bucket` is the (nonempty, greedy) segment before the first
`/` — with no `/` at all it absorbs the whole remainder; the optional `key`
is the remainder after that `/`.  Python's `$` matches at the end of the
string or just before one trailing newline, so after the `/` the regex
accepts: nothing, a lone newline (key absent in both cases), a nonempty
whitespace-free key, or such a key followed by one trailing newline (the
newline is left outside the key group).  Everything else fails to match. -/
def s3Match (url : Str) : Option (Str × Option Str) :=
  match stripLead (str "s3://") url with
  | none => none
  | some rest =>
    match splitFirst '/' rest with
    | none => if rest.isEmpty then none else some (rest, none)
    | some (b, t) =>
      if b.isEmpty then none
      else if t.isEmpty then some (b, none)
      else if t = ['\n'] then some (b, none)
      else if t.all (fun c => !isPySpace c) then some (b, some t)
      else if t.getLast? = some '\n' ∧ t.dropLast.all (fun c => !isPySpace c) = true then
        some (b, some t.dropLast)
      else none

/-- Embedding of `parse_s3_url` (source lines 81-96).  The code calls
`.groupdict()` on the match object without checking for `None`, so a failed
match raises an `AttributeError` rather than any handled error. -/
def parse_s3_url (url : Str) : Except PyExc Resource :=
  match s3Match url with
  | none => Except.error PyExc.attributeErrorNoneType
  | some (b, none) => Except.ok ⟨str "s3", some (str "bucket"), RName.str b, none⟩
  | some (b, some k) => Except.ok ⟨str "s3", some (str "object"), RName.pair b k, none⟩

/-- A hosted zone as returned by `list_hosted_zones`: its (trailing-dot) name
and its opaque ID. -/
structure HostedZone where
  zname : Str
  zid : Str
deriving DecidableEq

/-- The Route 53 environment seen during classification: the listed hosted
zones (in listing order) and, for each zone ID, its resource record sets in
pagination order. -/
structure R53Env where
  zones : List HostedZone
  recordSets : Str → List RecordSet

/-- Python dict insertion: overwrite the value in place if the key is already
present, otherwise append the binding. -/
def dictInsert (d : List (Str × Str)) (k v : Str) : List (Str × Str) :=
  match d with
  | [] => [(k, v)]
  | (k0, v0) :: rest =>
    if k0 = k then (k0, v) :: rest else (k0, v0) :: dictInsert rest k v

/-- Python dict lookup on the insertion-ordered binding list. -/
def dictLookup (d : List (Str × Str)) (k : Str) : Option Str :=
  match d with
  | [] => none
  | (k0, v) :: rest => if k0 = k then some v else dictLookup rest k

/-- The `matched_zones` dict comprehension of `possible_route53_resource`:
`{zone["Name"]: zone["Id"] for zone in all_zones if dotted_name.endswith(zone["Name"])}`. -/
def matchedZones (env : R53Env) (dotted : Str) : List (Str × Str) :=
  (env.zones.filter fun z => endsWith z.zname dotted).foldl
    (fun d z => dictInsert d z.zname z.zid) []

/-- The record-scanning loop of `possible_route53_resource`: for each matched
zone in dict iteration order, filter its record sets by
`Name == dotted_name` (the JMESPath search) and return the first hit. -/
def findRecord (env : R53Env) (dotted : Str) : List (Str × Str) → Option RecordSet
  | [] => none
  | (_, zid) :: rest =>
    match ((env.recordSets zid).filter fun r => r.rname = dotted).head? with
    | some r => some r
    | none => findRecord env dotted rest

/-- The trailing-dot normalization at the top of `possible_route53_resource`. -/
def dottedOf (name : Str) : Str :=
  if endsWith (str ".") name then name else name ++ str "."

/-- Embedding of `possible_route53_resource` (source lines 99-141).  Returns
`none` both when no zone suffix-matches (the explicit `return None`) and when
the record scan finds nothing (the function falls off the end). -/
def possible_route53_resource (env : R53Env) (name : Str) : Option Resource :=
  let dotted := dottedOf name
  let matched := matchedZones env dotted
  match dictLookup matched dotted with
  | some zid =>
    some ⟨str "route53", some (str "hosted_zone"), RName.str zid, none⟩
  | none =>
    if matched.isEmpty then none
    else
      match findRecord env dotted matched with
      | some r => some ⟨str "route53", some (str "record"), RName.str name, some r⟩
      | none => none

/-- The bare-name fallback regex `[-\w]+\.[-\w]+[\.]*` of
`determine_resource_type`, applied with `re.match` (so it only constrains a
leading portion of the identifier): a nonempty `[-\w]` run, a literal dot and
at least one further `[-\w]` character. -/
def dnsShaped (id : Str) : Bool :=
  let a := id.takeWhile isWordHyphen
  match id.drop a.length with
  | '.' :: c :: _ => !a.isEmpty && isWordHyphen c
  | _ => false

/-- The observable outcome of `determine_resource_type`: a returned
descriptor, a `sys.exit` with the given status, or an unhandled exception. -/
inductive ClassifyOutcome where
  | ok : Resource → ClassifyOutcome
  | exitCode : Nat → ClassifyOutcome
  | exc : PyExc → ClassifyOutcome
deriving DecidableEq

/-- Embedding of `determine_resource_type` (source lines 152-197): the
ordered classification ladder.  Exceptions raised by `parse_arn` and
`parse_s3_url` are not caught anywhere in the program, so they surface as
`ClassifyOutcome.exc`. -/
def determine_resource_type (env : R53Env) (identifier : Str) : ClassifyOutcome :=
  if (stripLead (str "arn:") identifier).isSome then
    match parse_arn identifier with
    | Except.ok r => ClassifyOutcome.ok r
    | Except.error e => ClassifyOutcome.exc e
  else if (stripLead (str "s3://") identifier).isSome then
    match parse_s3_url identifier with
    | Except.ok r => ClassifyOutcome.ok r
    | Except.error e => ClassifyOutcome.exc e
  else if (stripLead (str "i-") identifier).isSome then
    ClassifyOutcome.ok ⟨str "ec2", some (str "instance"), RName.str identifier, none⟩
  else if (stripLead (str "subnet-") identifier).isSome then
    ClassifyOutcome.ok ⟨str "ec2", some (str "subnet"), RName.str identifier, none⟩
  else if (stripLead (str "snap-") identifier).isSome then
    ClassifyOutcome.ok ⟨str "ec2", some (str "snapshot"), RName.str identifier, none⟩
  else if (stripLead (str "vol-") identifier).isSome then
    ClassifyOutcome.ok ⟨str "ec2", some (str "volume"), RName.str identifier, none⟩
  else if (stripLead (str "vpc-") identifier).isSome then
    ClassifyOutcome.ok ⟨str "ec2", some (str "vpc"), RName.str identifier, none⟩
  else if dnsShaped identifier then
    match possible_route53_resource env identifier with
    | some r => ClassifyOutcome.ok r
    | none => ClassifyOutcome.exitCode 2
  else
    ClassifyOutcome.exitCode 2

/-- The process exit status a classification outcome leads to: `sys.exit(n)`
exits with `n`; an unhandled exception makes the Python interpreter exit with
status 1; a returned descriptor continues execution. -/
def processExit : ClassifyOutcome → Option Nat
  | ClassifyOutcome.ok _ => none
  | ClassifyOutcome.exitCode n => some n
  | ClassifyOutcome.exc _ => some 1

/-- A Route 53 environment with no hosted zones, used for concrete runs that
never reach the Route 53 path. -/
def emptyR53 : R53Env := ⟨[], fun _ => []⟩

/-- An attribute record returned by an AWS describe call, as an
insertion-ordered mapping from attribute name to an (opaque) value. -/
abbrev AttrRec := List (Str × Nat)

/-- The value stored under `"tags"` in the bucket output: the fetched
`TagSet` list, or the literal empty dict `{}` substituted when the tagging
call raises `ClientError`. -/
inductive TagsVal where
  | tagSet : List (Str × Str) → TagsVal
  | emptyDict : TagsVal
deriving DecidableEq

/-- The S3 environment for the bucket being described: the
`get_bucket_location` `LocationConstraint` (possibly `None`), the
`get_bucket_versioning` `Status` (possibly absent), the result of
`get_bucket_tagging` (a `TagSet` or a raised exception) and the
`head_object` response. -/
structure S3Env where
  locationConstraint : Option Str
  versioningStatus : Option Str
  tagging : Except PyExc (List (Str × Str))
  headData : AttrRec

/-- The complete AWS environment seen by `describe_resource`: the single
records the EC2 describe calls return, the S3 environment, and the
`get_hosted_zone` detail per zone ID. -/
structure AwsEnv where
  instanceRecord : AttrRec
  subnetRecord : AttrRec
  vpcRecord : AttrRec
  volumeRecord : AttrRec
  snapshotRecord : AttrRec
  s3 : S3Env
  zoneDetail : Str → AttrRec

/-- The bucket output dict of the `s3` + `bucket` branch. -/
structure BucketDesc where
  bname : RName
  region : Str
  versioningStatus : Str
  tags : TagsVal
deriving DecidableEq

/-- The object output dict of the `s3` + `object` branch: `{bucket, key,
region}` updated with the `head_object` response. -/
structure ObjDesc where
  bucket : Str
  key : Str
  region : Str
  headData : AttrRec
deriving DecidableEq

/-- The observable outcome of `describe_resource`: what is printed (if
anything), a `sys.exit`, or an unhandled exception.  `noOutput` is the case
where the function returns without printing anything at all. -/
inductive DescribeOutcome where
  | printedEc2 : AttrRec → DescribeOutcome
  | printedBucket : BucketDesc → DescribeOutcome
  | printedObject : ObjDesc → DescribeOutcome
  | printedRecord : RecordSet → DescribeOutcome
  | printedZone : AttrRec → DescribeOutcome
  | exitCode : Nat → DescribeOutcome
  | exc : PyExc → DescribeOutcome
  | noOutput : DescribeOutcome
deriving DecidableEq

/-- The fixed attribute allow-list applied to EC2 instance data when `--full`
is not given (source lines 206-212). -/
def filtered_attributes : List Str :=
  [str "InstanceType", str "PrivateIpAddress", str "SecurityGroups",
   str "SubnetId", str "VpcId"]

/-- Embedding of `describe_ec2_resource` (source lines 200-256).  `data`
starts as the empty dict and is only assigned in the five recognized
sub-type branches; an unrecognized sub-type therefore returns `{}`.  For an
instance with `full = false` the record is filtered by the dict comprehension
`{n: rec[n] for n in rec if n in filtered_attributes}`. -/
def describe_ec2_resource (env : AwsEnv) (r : Resource) (full : Bool) : AttrRec :=
  if r.subType = some (str "instance") then
    if full then env.instanceRecord
    else env.instanceRecord.filter fun p => p.1 ∈ filtered_attributes
  else if r.subType = some (str "subnet") then env.subnetRecord
  else if r.subType = some (str "vpc") then env.vpcRecord
  else if r.subType = some (str "volume") then env.volumeRecord
  else if r.subType = some (str "snapshot") then env.snapshotRecord
  else []

/-- Embedding of `describe_route53_resource` (source lines 144-149): a
`get_hosted_zone` call on the descriptor's name. -/
def describe_route53_resource (env : AwsEnv) (r : Resource) : Except PyExc AttrRec :=
  match r.name with
  | RName.str s => Except.ok (env.zoneDetail s)
  | RName.pair _ _ => Except.error (PyExc.otherException (str "ParamValidationError"))

/-- The `bucket_name` computation at the top of the `s3` branch of
`describe_resource`: `resource["name"]` when the sub-type is `bucket`,
otherwise `resource["name"][0]` (indexing a string yields its first
character, and raises `IndexError` when the string is empty). -/
def s3BucketName (r : Resource) : Except PyExc Unit :=
  if r.subType = some (str "bucket") then Except.ok ()
  else
    match r.name with
    | RName.str [] => Except.error PyExc.indexError
    | RName.str (_ :: _) => Except.ok ()
    | RName.pair _ _ => Except.ok ()

/-- The `region` computation of the `s3` branch:
`client.get_bucket_location(...)["LocationConstraint"] or "us-east-1"`
(both `None` and the empty string are falsy). -/
def s3Region (env : S3Env) : Str :=
  match env.locationConstraint with
  | some r => if r.isEmpty then str "us-east-1" else r
  | none => str "us-east-1"

/-- Embedding of `describe_resource` (source lines 259-311).  The dispatch is
exactly the source's if/elif ladder; note that a `type` outside
`{ec2, s3, route53}` falls through every branch and the function returns
having printed nothing, and that within the `s3` + `bucket` branch the
`get_bucket_tagging` call is wrapped in `try/except
botocore.exceptions.ClientError`, which substitutes `{}` for the tags on any
`ClientError` and lets every other exception escape. -/
def describe_resource (env : AwsEnv) (r : Resource) (full : Bool) : DescribeOutcome :=
  if r.type = str "ec2" then
    DescribeOutcome.printedEc2 (describe_ec2_resource env r full)
  else if r.type = str "s3" then
    match s3BucketName r with
    | Except.error e => DescribeOutcome.exc e
    | Except.ok _ =>
      let region := s3Region env.s3
      if r.subType = some (str "bucket") then
        let ver := (env.s3.versioningStatus).getD (str "Disabled")
        match env.s3.tagging with
        | Except.ok ts =>
          DescribeOutcome.printedBucket ⟨r.name, region, ver, TagsVal.tagSet ts⟩
        | Except.error (PyExc.clientError _) =>
          DescribeOutcome.printedBucket ⟨r.name, region, ver, TagsVal.emptyDict⟩
        | Except.error e => DescribeOutcome.exc e
      else if r.subType = some (str "object") then
        match r.name with
        | RName.pair b k =>
          DescribeOutcome.printedObject ⟨b, k, region, env.s3.headData⟩
        | RName.str [] => DescribeOutcome.exc PyExc.indexError
        | RName.str [_] => DescribeOutcome.exc PyExc.indexError
        | RName.str (c0 :: c1 :: _) =>
          DescribeOutcome.printedObject ⟨[c0], [c1], region, env.s3.headData⟩
      else
        DescribeOutcome.exitCode 2
  else if r.type = str "route53" then
    if r.subType = some (str "record") then
      match r.data with
      | some d => DescribeOutcome.printedRecord d
      | none => DescribeOutcome.exc (PyExc.otherException (str "KeyError"))
    else
      match describe_route53_resource env r with
      | Except.ok z => DescribeOutcome.printedZone z
      | Except.error e => DescribeOutcome.exc e
  else
    DescribeOutcome.noOutput

/-- A concrete AWS environment for counterexample runs. -/
def sampleEnv : AwsEnv :=
  { instanceRecord := [(str "InstanceType", 1), (str "PrivateIpAddress", 2),
      (str "SecurityGroups", 3), (str "SubnetId", 4), (str "VpcId", 5),
      (str "ImageId", 6), (str "State", 7)]
    subnetRecord := [(str "SubnetId", 4)]
    vpcRecord := [(str "VpcId", 5)]
    volumeRecord := [(str "VolumeId", 8)]
    snapshotRecord := [(str "SnapshotId", 9)]
    s3 := { locationConstraint := none
            versioningStatus := none
            tagging := Except.ok [(str "team", str "sre")]
            headData := [(str "ContentLength", 10)] }
    zoneDetail := fun _ => [] }

/-- The sample environment with the bucket-tagging call failing with an
`AccessDenied` `ClientError` (not a not-found condition). -/
def accessDeniedEnv : AwsEnv :=
  { sampleEnv with
    s3 := { sampleEnv.s3 with
            tagging := Except.error (PyExc.clientError (str "AccessDenied")) } }

/-- The sample environment with the bucket-tagging call failing with the
not-found `ClientError` an untagged bucket produces. -/
def noSuchTagSetEnv : AwsEnv :=
  { sampleEnv with
    s3 := { sampleEnv.s3 with
            tagging := Except.error (PyExc.clientError (str "NoSuchTagSet")) } }

/-- The sample environment with an instance record carrying only one of the
five allow-listed attributes. -/
def sparseInstanceEnv : AwsEnv :=
  { sampleEnv with instanceRecord := [(str "InstanceType", 1)] }

/-- A concrete Route 53 environment: two hosted zones, with one record set
in the first. -/
def wwwEnv : R53Env :=
  { zones := [⟨str "example.com.", str "Z1"⟩, ⟨str "other.org.", str "Z2"⟩]
    recordSets := fun zid =>
      if zid = str "Z1" then [⟨str "www.example.com.", 42⟩] else [] }

/-- The synthetic ARN rebuilt from a descriptor's `type`, `sub_type` and
`name` (with empty region and account), used to state the classification
round-trip property: `arn:aws:ec2:::<sub>/<name>`, `arn:aws:rds:::<sub>:<name>`,
and `arn:aws:<type>:::<resource>` for every other service. -/
def mkSyntheticArn (r : Resource) : Str :=
  match r.subType, r.name with
  | some sub, RName.str nm =>
    if r.type = str "ec2" then
      str "arn:aws:" ++ (r.type ++ (':' :: (':' :: (':' :: (sub ++ '/' :: nm)))))
    else if r.type = str "rds" then
      str "arn:aws:" ++ (r.type ++ (':' :: (':' :: (':' :: (sub ++ ':' :: nm)))))
    else
      str "arn:aws:" ++ (r.type ++ (':' :: (':' :: (':' :: nm))))
  | _, RName.str nm => str "arn:aws:" ++ (r.type ++ (':' :: (':' :: (':' :: nm))))
  | _, RName.pair b k =>
    str "arn:aws:" ++ (r.type ++ (':' :: (':' :: (':' :: (b ++ '/' :: k)))))

/-- Modelled from the claim's wording of the Route 53 resolution procedure
(spec section 4.2), to be compared with `possible_route53_resource`: for each
candidate zone in order, find the first record set whose name equals the
dotted name. -/
def specFirstHit (env : R53Env) (dotted : Str) : List HostedZone → Option RecordSet
  | [] => none
  | z :: rest =>
    match (env.recordSets z.zid).find? (fun r => r.rname = dotted) with
    | some r => some r
    | none => specFirstHit env dotted rest

/-- The claim-side resolution procedure, following the claim's words: append
a trailing dot if absent; if the dotted name exactly equals a listed zone's
name, return a `hosted_zone` descriptor carrying that zone's ID; otherwise,
if at least one listed zone's name is a suffix of the dotted name, scan those
candidate zones in iteration order and return a `record` descriptor at the
first record whose name equals the dotted name; otherwise yield nothing. -/
def resolveRoute53Spec (env : R53Env) (name : Str) : Option Resource :=
  let dotted := dottedOf name
  let candidates := env.zones.filter fun z => endsWith z.zname dotted
  match env.zones.find? (fun z => z.zname = dotted) with
  | some z => some ⟨str "route53", some (str "hosted_zone"), RName.str z.zid, none⟩
  | none =>
    if candidates.isEmpty then none
    else
      match specFirstHit env dotted candidates with
      | some r => some ⟨str "route53", some (str "record"), RName.str name, some r⟩
      | none => none

/-- A whitespace-free, nonempty object key, as the claim describes it. -/
def keyShaped (k : Str) : Prop :=
  k ≠ [] ∧ ∀ c ∈ k, isPySpace c = false

/-- The claim-side characterization of an `s3://` remainder the URL regex
accepts: a non-empty slash-free bucket, optionally followed by `/` and
(optionally) a whitespace-free key. -/
def s3RemainderShaped (r : Str) : Prop :=
  ∃ n ∈ Finset.range (r.length + 1),
    r.take n ≠ [] ∧ '/' ∉ r.take n ∧
    (r.drop n = [] ∨ r.drop n = ['/'] ∨
      ((r.drop n).head? = some '/' ∧ keyShaped (r.drop n).tail))

instance (k : Str) : Decidable (keyShaped k) := by
  unfold keyShaped
  infer_instance

instance (r : Str) : Decidable (s3RemainderShaped r) := by
  unfold s3RemainderShaped
  infer_instance

/-! ## Helper lemmas about the string primitives -/

theorem isEmpty_eq_false_of_ne {α : Type} {l : List α} (h : l ≠ []) :
    l.isEmpty = false := by
  cases l with
  | nil => exact absurd rfl h
  | cons a as => rfl

theorem ne_nil_of_isEmpty_eq_false {α : Type} {l : List α} (h : l.isEmpty = false) :
    l ≠ [] := by
  cases l with
  | nil => cases h
  | cons a as => exact List.cons_ne_nil a as

theorem stripLead_append (p t : Str) : stripLead p (p ++ t) = some t := by
  induction p with
  | nil => rfl
  | cons c ps ih => simp [stripLead, ih]

theorem stripLead_eq_some {p : Str} :
    ∀ {s t : Str}, stripLead p s = some t → s = p ++ t := by
  induction p with
  | nil =>
    intro s t h
    simp only [stripLead, Option.some.injEq] at h
    simp [h]
  | cons c ps ih =>
    intro s t h
    cases s with
    | nil => cases h
    | cons c0 cs =>
      simp only [stripLead] at h
      by_cases hc : c0 = c
      · rw [if_pos hc] at h
        rw [hc, ih h]
        rfl
      · rw [if_neg hc] at h
        cases h

theorem splitFirst_eq_some {sep : Char} {s a b : Str}
    (h : splitFirst sep s = some (a, b)) : s = a ++ sep :: b ∧ sep ∉ a := by
  induction s generalizing a b with
  | nil => cases h
  | cons c rest ih =>
    simp only [splitFirst] at h
    by_cases hc : c = sep
    · rw [if_pos hc] at h
      simp only [Option.some.injEq, Prod.mk.injEq] at h
      obtain ⟨ha, hb⟩ := h
      subst ha; subst hb; subst hc
      simp
    · rw [if_neg hc] at h
      cases hsf : splitFirst sep rest with
      | none => rw [hsf] at h; cases h
      | some ab =>
        obtain ⟨a', b'⟩ := ab
        rw [hsf] at h
        simp only [Option.some.injEq, Prod.mk.injEq] at h
        obtain ⟨ha, hb⟩ := h
        obtain ⟨hr, hna⟩ := ih hsf
        subst hb
        constructor
        · rw [← ha, hr]; rfl
        · rw [← ha]
          intro hm
          rcases List.mem_cons.1 hm with h1 | h1
          · exact hc h1.symm
          · exact hna h1

theorem splitFirst_append {sep : Char} {a b : Str} (h : sep ∉ a) :
    splitFirst sep (a ++ sep :: b) = some (a, b) := by
  induction a with
  | nil => simp [splitFirst]
  | cons c cs ih =>
    have hc : c ≠ sep := fun e => h (by simp [e])
    have h' : sep ∉ cs := fun hm => h (List.mem_cons_of_mem _ hm)
    simp [splitFirst, hc, ih h']

theorem splitFirst_eq_none {sep : Char} {s : Str} (h : sep ∉ s) :
    splitFirst sep s = none := by
  induction s with
  | nil => rfl
  | cons c cs ih =>
    have hc : c ≠ sep := fun e => h (by simp [e])
    simp [splitFirst, hc, ih (fun hm => h (List.mem_cons_of_mem _ hm))]

theorem pySplit_ne_nil (sep : Char) (s : Str) : pySplit sep s ≠ [] := by
  cases s with
  | nil => simp [pySplit]
  | cons c rest =>
    by_cases hc : c = sep
    · simp [pySplit, hc]
    · simp only [pySplit, if_neg hc]
      cases h : pySplit sep rest <;> simp

theorem unsplit_pySplit (sep : Char) (s : Str) :
    unsplit sep (pySplit sep s) = s := by
  induction s with
  | nil => rfl
  | cons c rest ih =>
    by_cases hc : c = sep
    · simp only [pySplit, if_pos hc]
      cases hps : pySplit sep rest with
      | nil => exact absurd hps (pySplit_ne_nil sep rest)
      | cons p ps =>
        rw [hps] at ih
        show [] ++ sep :: unsplit sep (p :: ps) = c :: rest
        rw [List.nil_append, ih, hc]
    · simp only [pySplit, if_neg hc]
      cases hps : pySplit sep rest with
      | nil => exact absurd hps (pySplit_ne_nil sep rest)
      | cons p ps =>
        rw [hps] at ih
        cases ps with
        | nil =>
          show c :: p = c :: rest
          have hp : p = rest := ih
          rw [hp]
        | cons q qs =>
          show (c :: p) ++ sep :: unsplit sep (q :: qs) = c :: rest
          have ih' : p ++ sep :: unsplit sep (q :: qs) = rest := ih
          rw [List.cons_append, ih']

theorem pySplit_sep_not_mem {sep : Char} {s : Str} :
    ∀ p ∈ pySplit sep s, sep ∉ p := by
  induction s with
  | nil =>
    intro p hp
    simp only [pySplit, List.mem_singleton] at hp
    subst hp
    simp
  | cons c rest ih =>
    intro p hp
    by_cases hc : c = sep
    · simp only [pySplit, if_pos hc, List.mem_cons] at hp
      rcases hp with h | h
      · subst h; simp
      · exact ih p h
    · simp only [pySplit, if_neg hc] at hp
      cases hps : pySplit sep rest with
      | nil => exact absurd hps (pySplit_ne_nil sep rest)
      | cons q ps =>
        rw [hps] at hp
        simp only [List.mem_cons] at hp
        rcases hp with h1 | h1
        · subst h1
          intro hm
          rcases List.mem_cons.1 hm with h2 | h2
          · exact hc h2.symm
          · exact ih q (by rw [hps]; exact List.mem_cons_self q ps) h2
        · exact ih p (by rw [hps]; exact List.mem_cons_of_mem q h1)

theorem pySplit_eq_pair {sep : Char} {s x y : Str} (h : pySplit sep s = [x, y]) :
    s = x ++ sep :: y ∧ sep ∉ x ∧ sep ∉ y := by
  have hs := unsplit_pySplit sep s
  rw [h] at hs
  refine ⟨?_, ?_, ?_⟩
  · rw [← hs]; rfl
  · exact pySplit_sep_not_mem x (by rw [h]; simp)
  · exact pySplit_sep_not_mem y (by rw [h]; simp)

theorem pySplit_no_sep {sep : Char} {s : Str} (h : sep ∉ s) :
    pySplit sep s = [s] := by
  induction s with
  | nil => rfl
  | cons c cs ih =>
    have hc : c ≠ sep := fun e => h (by simp [e])
    have h' : sep ∉ cs := fun hm => h (List.mem_cons_of_mem _ hm)
    simp [pySplit, hc, ih h']

theorem pySplit_pair {sep : Char} {x y : Str} (hx : sep ∉ x) (hy : sep ∉ y) :
    pySplit sep (x ++ sep :: y) = [x, y] := by
  induction x with
  | nil => simp [pySplit, pySplit_no_sep hy]
  | cons c cs ih =>
    have hc : c ≠ sep := fun e => hx (by simp [e])
    have h' : sep ∉ cs := fun hm => hx (List.mem_cons_of_mem _ hm)
    simp [pySplit, hc, ih h']

/-! ## Helper lemmas about the ARN matcher and parser -/

theorem digits_no_colon {account : Str} (ha : account.all isDigitB = true) :
    ':' ∉ account := by
  intro hm
  have hd : isDigitB ':' = true := by
    exact List.all_eq_true.1 ha ':' hm
  have : isDigitB ':' = false := by decide
  rw [this] at hd
  cases hd

theorem arnMatch_eq_some {arn : Str} {g : ArnGroups} (h : arnMatch arn = some g) :
    arn = str "arn:aws:" ++
        (g.service ++ (':' :: (g.region ++ (':' :: (g.account ++ (':' :: g.resource)))))) ∧
      ':' ∉ g.service ∧ ':' ∉ g.region ∧ ':' ∉ g.account ∧
      g.service ≠ [] ∧ g.account.all isDigitB = true ∧
      g.resource ≠ [] ∧ g.resource.all (fun c => !isPySpace c) = true := by
  unfold arnMatch at h
  split at h
  · cases h
  next rest h0 =>
    split at h
    · cases h
    next service r1 h1 =>
      split at h
      · cases h
      next region r2 h2 =>
        split at h
        · cases h
        next account resource h3 =>
          split at h
          next hcond =>
            simp only [Option.some.injEq] at h
            subst h
            simp only [Bool.and_eq_true, Bool.not_eq_true'] at hcond
            obtain ⟨⟨⟨hse, had⟩, hre⟩, hsp⟩ := hcond
            obtain ⟨hrest, hns⟩ := splitFirst_eq_some h1
            obtain ⟨hr1, hnr⟩ := splitFirst_eq_some h2
            obtain ⟨hr2, hna⟩ := splitFirst_eq_some h3
            refine ⟨?_, hns, hnr, hna, ne_nil_of_isEmpty_eq_false hse, had,
              ne_nil_of_isEmpty_eq_false hre, hsp⟩
            rw [stripLead_eq_some h0, hrest, hr1, hr2]
          next => cases h

theorem arnMatch_mk (service region account resource : Str)
    (hs : service ≠ []) (hsc : ':' ∉ service) (hrc : ':' ∉ region)
    (ha : account.all isDigitB = true)
    (hres : resource ≠ []) (hsp : resource.all (fun c => !isPySpace c) = true) :
    arnMatch (str "arn:aws:" ++
        (service ++ (':' :: (region ++ (':' :: (account ++ (':' :: resource))))))) =
      some ⟨service, region, account, resource⟩ := by
  have hac : ':' ∉ account := digits_no_colon ha
  simp [arnMatch, stripLead_append, splitFirst_append hsc, splitFirst_append hrc,
    splitFirst_append hac, isEmpty_eq_false_of_ne hs, isEmpty_eq_false_of_ne hres,
    ha, hsp]

theorem parse_arn_ok_cases {arn : Str} {r : Resource}
    (h : parse_arn arn = Except.ok r) :
    ∃ g, arnMatch arn = some g ∧
      ((g.service = str "ec2" ∧ ∃ sub nm, pySplit '/' g.resource = [sub, nm] ∧
          r = ⟨str "ec2", some sub, RName.str nm, none⟩) ∨
       (g.service ≠ str "ec2" ∧ g.service = str "rds" ∧
          ∃ sub nm, pySplit ':' g.resource = [sub, nm] ∧
          r = ⟨str "rds", some sub, RName.str nm, none⟩) ∨
       (g.service ≠ str "ec2" ∧ g.service ≠ str "rds" ∧ g.service = str "s3" ∧
          r = ⟨str "s3", some (str "bucket"), RName.str g.resource, none⟩) ∨
       (g.service ≠ str "ec2" ∧ g.service ≠ str "rds" ∧ g.service ≠ str "s3" ∧
          r = ⟨g.service, none, RName.str g.resource, none⟩)) := by
  unfold parse_arn at h
  split at h
  · cases h
  next g hg =>
    refine ⟨g, hg, ?_⟩
    split at h
    next he =>
      split at h
      next sub nm hps =>
        exact Or.inl ⟨he, sub, nm, hps, (Except.ok.inj h).symm⟩
      next => cases h
    next he =>
      split at h
      next hr =>
        split at h
        next sub nm hps =>
          exact Or.inr (Or.inl ⟨he, hr, sub, nm, hps, (Except.ok.inj h).symm⟩)
        next => cases h
      next hr =>
        split at h
        next hs3 =>
          exact Or.inr (Or.inr (Or.inl ⟨he, hr, hs3, (Except.ok.inj h).symm⟩))
        next hs3 =>
          exact Or.inr (Or.inr (Or.inr ⟨he, hr, hs3, (Except.ok.inj h).symm⟩))

/-! ## C9: ARN classification round-trip -/

/-- C9: for every descriptor produced by successfully classifying an ARN,
constructing the equivalent synthetic ARN from the descriptor's `type`,
`sub_type` and `name` and classifying that synthetic ARN yields the same
descriptor. -/
theorem parse_arn_roundtrip {arn : Str} {r : Resource}
    (h : parse_arn arn = Except.ok r) :
    parse_arn (mkSyntheticArn r) = Except.ok r := by
  obtain ⟨g, hg, hcases⟩ := parse_arn_ok_cases h
  obtain ⟨harn, hns, hnr, hna, hsne, hdig, hrne, hsp⟩ := arnMatch_eq_some hg
  rcases hcases with ⟨he, sub, nm, hps, hr⟩ | ⟨hne, hrds, sub, nm, hps, hr⟩ |
    ⟨hne, hnrds, hs3, hr⟩ | ⟨hne, hnrds, hns3, hr⟩
  · obtain ⟨hres, hsub, hnm⟩ := pySplit_eq_pair hps
    subst hr
    have hmk : mkSyntheticArn ⟨str "ec2", some sub, RName.str nm, none⟩ =
        str "arn:aws:" ++ (str "ec2" ++ (':' :: (':' :: (':' :: (sub ++ '/' :: nm))))) := by
      simp [mkSyntheticArn]
    have hm := arnMatch_mk (str "ec2") [] [] (sub ++ '/' :: nm) (by decide) (by decide) (by simp) rfl
      (by simp) (hres ▸ hsp)
    simp only [List.nil_append] at hm
    rw [hmk]
    simp [parse_arn, hm, pySplit_pair hsub hnm]
  · obtain ⟨hres, hsub, hnm⟩ := pySplit_eq_pair hps
    subst hr
    have h1 : ¬ (str "rds" = str "ec2") := by decide
    have hmk : mkSyntheticArn ⟨str "rds", some sub, RName.str nm, none⟩ =
        str "arn:aws:" ++ (str "rds" ++ (':' :: (':' :: (':' :: (sub ++ ':' :: nm))))) := by
      simp [mkSyntheticArn, h1]
    have hm := arnMatch_mk (str "rds") [] [] (sub ++ ':' :: nm) (by decide) (by decide) (by simp) rfl
      (by simp) (hres ▸ hsp)
    simp only [List.nil_append] at hm
    rw [hmk]
    simp [parse_arn, hm, h1, pySplit_pair hsub hnm]
  · subst hr
    have h1 : ¬ (str "s3" = str "ec2") := by decide
    have h2 : ¬ (str "s3" = str "rds") := by decide
    have hmk : mkSyntheticArn ⟨str "s3", some (str "bucket"), RName.str g.resource, none⟩ =
        str "arn:aws:" ++ (str "s3" ++ (':' :: (':' :: (':' :: g.resource)))) := by
      simp [mkSyntheticArn, h1, h2]
    have hm := arnMatch_mk (str "s3") [] [] g.resource (by decide) (by decide) (by simp) rfl hrne hsp
    simp only [List.nil_append] at hm
    rw [hmk]
    simp [parse_arn, hm, h1, h2]
  · subst hr
    have hmk : mkSyntheticArn ⟨g.service, none, RName.str g.resource, none⟩ =
        str "arn:aws:" ++ (g.service ++ (':' :: (':' :: (':' :: g.resource)))) := by
      simp [mkSyntheticArn]
    have hm := arnMatch_mk g.service [] [] g.resource hsne hns (by simp) rfl hrne hsp
    simp only [List.nil_append] at hm
    rw [hmk]
    simp [parse_arn, hm, hne, hnrds, hns3]

/-- Witness for C9: the round-trip applied to the sample subnet ARN from the
source's comments. -/
theorem parse_arn_roundtrip_witness :
    parse_arn (mkSyntheticArn
      ⟨str "ec2", some (str "subnet"), RName.str (str "subnet-b93f81d0"), none⟩) =
      Except.ok
        ⟨str "ec2", some (str "subnet"), RName.str (str "subnet-b93f81d0"), none⟩ :=
  parse_arn_roundtrip
    (show parse_arn (str "arn:aws:ec2:us-east-2:643927032162:subnet/subnet-b93f81d0") =
        Except.ok
          ⟨str "ec2", some (str "subnet"), RName.str (str "subnet-b93f81d0"), none⟩ by
      decide)

/-! ## Helper lemmas about the other classifier branches -/

theorem parse_s3_url_ok {u : Str} {r : Resource} (h : parse_s3_url u = Except.ok r) :
    r.type = str "s3" ∧
      (r.subType = some (str "bucket") ∨ r.subType = some (str "object")) := by
  unfold parse_s3_url at h
  split at h
  · cases h
  · cases Except.ok.inj h
    exact ⟨rfl, Or.inl rfl⟩
  · cases Except.ok.inj h
    exact ⟨rfl, Or.inr rfl⟩

theorem possible_route53_ok {env : R53Env} {n : Str} {r : Resource}
    (h : possible_route53_resource env n = some r) :
    r.type = str "route53" ∧
      (r.subType = some (str "hosted_zone") ∨ r.subType = some (str "record")) := by
  simp only [possible_route53_resource] at h
  split at h
  · cases Option.some.inj h
    exact ⟨rfl, Or.inl rfl⟩
  · split at h
    · cases h
    · split at h
      · cases Option.some.inj h
        exact ⟨rfl, Or.inr rfl⟩
      · cases h

theorem arn_ec2_lit (X : Str) :
    str "arn:aws:ec2:" ++ X = str "arn:aws:" ++ (str "ec2" ++ (':' :: X)) := by
  have h : str "arn:aws:ec2:" = str "arn:aws:" ++ (str "ec2" ++ [':']) := by decide
  rw [h, List.append_assoc, List.append_assoc]
  rfl

/-! ## C1: classification of ec2 ARNs -/

/-- C1 counterexample: on an ec2 ARN whose resource part contains two
slashes, the claim predicts splitting at the first `/` (descriptor
`{ec2, a, b/c}`), but `parse_arn` raises the tuple-unpacking `ValueError`
because `split("/")` yields three parts. -/
theorem parse_arn_first_slash_cex :
    parse_arn (str "arn:aws:ec2:us-east-2:123456789012:a/b/c") =
        Except.error PyExc.valueErrorUnpack ∧
      parse_arn (str "arn:aws:ec2:us-east-2:123456789012:a/b/c") ≠
        Except.ok ⟨str "ec2", some (str "a"), RName.str (str "b/c"), none⟩ := by
  decide

/-- C1 (amended): for every ARN `arn:aws:ec2:<region>:<account>:<resource>`
(account digits-only, resource whitespace-free), when the resource part is
`<sub>/<name>` with exactly one `/`, classification returns the descriptor
`{type: ec2, sub_type: <sub>, name: <name>}`; when the resource part contains
no `/` at all, classification fails with the tuple-unpacking `ValueError`
rather than a handled malformed-ARN error. -/
theorem parse_arn_ec2_split :
    (∀ region account sub nm : Str,
      ':' ∉ region → account.all isDigitB = true →
      '/' ∉ sub → '/' ∉ nm →
      (sub ++ '/' :: nm).all (fun c => !isPySpace c) = true →
      parse_arn (str "arn:aws:ec2:" ++
          (region ++ (':' :: (account ++ (':' :: (sub ++ '/' :: nm)))))) =
        Except.ok ⟨str "ec2", some sub, RName.str nm, none⟩) ∧
    (∀ region account res : Str,
      ':' ∉ region → account.all isDigitB = true →
      res ≠ [] → res.all (fun c => !isPySpace c) = true → '/' ∉ res →
      parse_arn (str "arn:aws:ec2:" ++ (region ++ (':' :: (account ++ (':' :: res))))) =
        Except.error PyExc.valueErrorUnpack) := by
  constructor
  · intro region account sub nm hrc ha hsub hnm hsp
    rw [arn_ec2_lit]
    have hm := arnMatch_mk (str "ec2") region account (sub ++ '/' :: nm)
      (by decide) (by decide) hrc ha (by simp) hsp
    simp [parse_arn, hm, pySplit_pair hsub hnm]
  · intro region account res hrc ha hne hsp hslash
    rw [arn_ec2_lit]
    have hm := arnMatch_mk (str "ec2") region account res
      (by decide) (by decide) hrc ha hne hsp
    simp [parse_arn, hm, pySplit_no_sep hslash]

/-- Witness for C1: the amended theorem applied to
`arn:aws:ec2:us-east-2:123456789012:instance/i-0abc`. -/
theorem parse_arn_ec2_split_witness :
    parse_arn (str "arn:aws:ec2:" ++
        (str "us-east-2" ++ (':' :: (str "123456789012" ++
          (':' :: (str "instance" ++ '/' :: str "i-0abc")))))) =
      Except.ok ⟨str "ec2", some (str "instance"), RName.str (str "i-0abc"), none⟩ :=
  parse_arn_ec2_split.1 (str "us-east-2") (str "123456789012")
    (str "instance") (str "i-0abc")
    (by decide) (by decide) (by decide) (by decide) (by decide)

/-! ## C7: type and sub_type consistency -/

/-- C7 counterexample: the classifier accepts `arn:aws:ec2:::bucket/foo` and
produces a descriptor with `type = "ec2"` and `sub_type = "bucket"`, because
an ec2 ARN's sub-type is taken verbatim from the resource part. -/
theorem classify_ec2_bucket_cex :
    determine_resource_type emptyR53 (str "arn:aws:ec2:::bucket/foo") =
      ClassifyOutcome.ok
        ⟨str "ec2", some (str "bucket"), RName.str (str "foo"), none⟩ := by
  decide

/-- C7 (amended): for every identifier that is not an ARN, the accepted
descriptor's `type` and `sub_type` are mutually consistent: `type = "ec2"`
only with the five bare-prefix sub-types (never `"bucket"`), `type = "s3"`
only with `bucket`/`object`, and `type = "route53"` only with
`hosted_zone`/`record`.  (For ARNs the sub-type is copied verbatim from the
resource part, which is what the counterexample exploits.) -/
theorem classify_consistent_non_arn (env : R53Env) (id : Str) (r : Resource)
    (harn : stripLead (str "arn:") id = none)
    (hok : determine_resource_type env id = ClassifyOutcome.ok r) :
    (r.type = str "ec2" → r.subType ≠ some (str "bucket") ∧
      (r.subType = some (str "instance") ∨ r.subType = some (str "subnet") ∨
       r.subType = some (str "snapshot") ∨ r.subType = some (str "volume") ∨
       r.subType = some (str "vpc"))) ∧
    (r.type = str "s3" →
      r.subType = some (str "bucket") ∨ r.subType = some (str "object")) ∧
    (r.type = str "route53" →
      r.subType = some (str "hosted_zone") ∨ r.subType = some (str "record")) := by
  unfold determine_resource_type at hok
  split at hok
  next hsome => rw [harn] at hsome; cases hsome
  next =>
    split at hok
    next =>
      split at hok
      next val heq =>
        cases ClassifyOutcome.ok.inj hok
        obtain ⟨hty, hsub⟩ := parse_s3_url_ok heq
        refine ⟨fun hc => ?_, fun _ => hsub, fun hc => ?_⟩
        · rw [hty] at hc; exact absurd hc (by decide)
        · rw [hty] at hc; exact absurd hc (by decide)
      next e heq => cases hok
    next =>
      split at hok
      next =>
        cases ClassifyOutcome.ok.inj hok
        exact ⟨fun _ => ⟨fun hq => absurd (Option.some.inj hq) (by decide), Or.inl rfl⟩,
          fun hc => absurd hc (show ¬ (str "ec2" = str "s3") by decide),
          fun hc => absurd hc (show ¬ (str "ec2" = str "route53") by decide)⟩
      next =>
        split at hok
        next =>
          cases ClassifyOutcome.ok.inj hok
          exact ⟨fun _ => ⟨fun hq => absurd (Option.some.inj hq) (by decide),
              Or.inr (Or.inl rfl)⟩,
            fun hc => absurd hc (show ¬ (str "ec2" = str "s3") by decide),
            fun hc => absurd hc (show ¬ (str "ec2" = str "route53") by decide)⟩
        next =>
          split at hok
          next =>
            cases ClassifyOutcome.ok.inj hok
            exact ⟨fun _ => ⟨fun hq => absurd (Option.some.inj hq) (by decide),
                Or.inr (Or.inr (Or.inl rfl))⟩,
              fun hc => absurd hc (show ¬ (str "ec2" = str "s3") by decide),
              fun hc => absurd hc (show ¬ (str "ec2" = str "route53") by decide)⟩
          next =>
            split at hok
            next =>
              cases ClassifyOutcome.ok.inj hok
              exact ⟨fun _ => ⟨fun hq => absurd (Option.some.inj hq) (by decide),
                  Or.inr (Or.inr (Or.inr (Or.inl rfl)))⟩,
                fun hc => absurd hc (show ¬ (str "ec2" = str "s3") by decide),
                fun hc => absurd hc (show ¬ (str "ec2" = str "route53") by decide)⟩
            next =>
              split at hok
              next =>
                cases ClassifyOutcome.ok.inj hok
                exact ⟨fun _ => ⟨fun hq => absurd (Option.some.inj hq) (by decide),
                    Or.inr (Or.inr (Or.inr (Or.inr rfl)))⟩,
                  fun hc => absurd hc (show ¬ (str "ec2" = str "s3") by decide),
                  fun hc => absurd hc (show ¬ (str "ec2" = str "route53") by decide)⟩
              next =>
                split at hok
                next =>
                  split at hok
                  next val heq =>
                    cases ClassifyOutcome.ok.inj hok
                    obtain ⟨hty, hsub⟩ := possible_route53_ok heq
                    refine ⟨fun hc => ?_, fun hc => ?_, fun _ => hsub⟩
                    · rw [hty] at hc; exact absurd hc (by decide)
                    · rw [hty] at hc; exact absurd hc (by decide)
                  next heq => cases hok
                next => cases hok

/-- Witness for C7: the amended consistency applied to the accepted S3 URL
`s3://b`. -/
theorem classify_consistent_non_arn_witness :
    ((⟨str "s3", some (str "bucket"), RName.str (str "b"), none⟩ : Resource).type =
        str "ec2" →
      (⟨str "s3", some (str "bucket"), RName.str (str "b"), none⟩ : Resource).subType ≠
          some (str "bucket") ∧
        ((⟨str "s3", some (str "bucket"), RName.str (str "b"), none⟩ : Resource).subType =
            some (str "instance") ∨
          (⟨str "s3", some (str "bucket"), RName.str (str "b"), none⟩ : Resource).subType =
            some (str "subnet") ∨
          (⟨str "s3", some (str "bucket"), RName.str (str "b"), none⟩ : Resource).subType =
            some (str "snapshot") ∨
          (⟨str "s3", some (str "bucket"), RName.str (str "b"), none⟩ : Resource).subType =
            some (str "volume") ∨
          (⟨str "s3", some (str "bucket"), RName.str (str "b"), none⟩ : Resource).subType =
            some (str "vpc"))) ∧
    ((⟨str "s3", some (str "bucket"), RName.str (str "b"), none⟩ : Resource).type =
        str "s3" →
      (⟨str "s3", some (str "bucket"), RName.str (str "b"), none⟩ : Resource).subType =
          some (str "bucket") ∨
        (⟨str "s3", some (str "bucket"), RName.str (str "b"), none⟩ : Resource).subType =
          some (str "object")) ∧
    ((⟨str "s3", some (str "bucket"), RName.str (str "b"), none⟩ : Resource).type =
        str "route53" →
      (⟨str "s3", some (str "bucket"), RName.str (str "b"), none⟩ : Resource).subType =
          some (str "hosted_zone") ∨
        (⟨str "s3", some (str "bucket"), RName.str (str "b"), none⟩ : Resource).subType =
          some (str "record")) :=
  classify_consistent_non_arn emptyR53 (str "s3://b")
    ⟨str "s3", some (str "bucket"), RName.str (str "b"), none⟩ (by decide) (by decide)

/-! ## C4: exit statuses of classification failures -/

/-- C4 counterexample: the malformed identifier `arn:aws:bad` starts with
`arn:` but fails to parse; classification raises an unhandled `ValueError`,
so the process terminates with the interpreter's exit status 1 — the
credential-failure status — and not with exit status 2. -/
theorem classify_malformed_exit_cex :
    determine_resource_type emptyR53 (str "arn:aws:bad") =
        ClassifyOutcome.exc (PyExc.valueErrorInvalidArn (str "arn:aws:bad")) ∧
      processExit (determine_resource_type emptyR53 (str "arn:aws:bad")) = some 1 ∧
      processExit (determine_resource_type emptyR53 (str "arn:aws:bad")) ≠ some 2 := by
  decide

/-- C4 (amended): every classification failure that goes through
`sys.exit` — an unrecognized identifier, or a Route 53 lookup that finds
nothing — exits with status 2; but a malformed `arn:`/`s3://` identifier
instead raises an unhandled exception, terminating with the interpreter's
exit status 1, the same status the pre-flight credential check uses. -/
theorem classify_failure_exits (env : R53Env) (id : Str) :
    (∀ n, determine_resource_type env id = ClassifyOutcome.exitCode n → n = 2) ∧
    (∀ e, determine_resource_type env id = ClassifyOutcome.exc e →
      processExit (ClassifyOutcome.exc e) = some 1 ∧
      ((stripLead (str "arn:") id).isSome ∨ (stripLead (str "s3://") id).isSome)) := by
  constructor
  · intro n h
    unfold determine_resource_type at h
    split at h
    next =>
      split at h
      next => cases h
      next => cases h
    next =>
      split at h
      next =>
        split at h
        next => cases h
        next => cases h
      next =>
        split at h
        next => cases h
        next =>
          split at h
          next => cases h
          next =>
            split at h
            next => cases h
            next =>
              split at h
              next => cases h
              next =>
                split at h
                next => cases h
                next =>
                  split at h
                  next =>
                    split at h
                    next => cases h
                    next => exact (ClassifyOutcome.exitCode.inj h).symm
                  next => exact (ClassifyOutcome.exitCode.inj h).symm
  · intro e h
    unfold determine_resource_type at h
    split at h
    next hsome =>
      refine ⟨rfl, Or.inl hsome⟩
    next =>
      split at h
      next hsome => exact ⟨rfl, Or.inr hsome⟩
      next =>
        split at h
        next => cases h
        next =>
          split at h
          next => cases h
          next =>
            split at h
            next => cases h
            next =>
              split at h
              next => cases h
              next =>
                split at h
                next => cases h
                next =>
                  split at h
                  next =>
                    split at h
                    next => cases h
                    next => cases h
                  next => cases h

/-- Witness for C4: the amended theorem applied to the malformed ARN
`arn:aws:bad`, whose classification outcome is an unhandled `ValueError`. -/
theorem classify_failure_exits_witness :
    processExit (ClassifyOutcome.exc (PyExc.valueErrorInvalidArn (str "arn:aws:bad"))) =
        some 1 ∧
      ((stripLead (str "arn:") (str "arn:aws:bad")).isSome ∨
        (stripLead (str "s3://") (str "arn:aws:bad")).isSome) :=
  (classify_failure_exits emptyR53 (str "arn:aws:bad")).2
    (PyExc.valueErrorInvalidArn (str "arn:aws:bad")) (by decide)

/-! ## C10 and C6: the S3 URL regex and `parse_s3_url` -/

theorem splitFirst_none_not_mem {sep : Char} {s : Str}
    (h : splitFirst sep s = none) : sep ∉ s := by
  induction s with
  | nil => simp
  | cons c cs ih =>
    simp only [splitFirst] at h
    by_cases hc : c = sep
    · rw [if_pos hc] at h; cases h
    · rw [if_neg hc] at h
      intro hm
      rcases List.mem_cons.1 hm with h1 | h1
      · exact hc h1.symm
      · cases hsf : splitFirst sep cs with
        | none => exact ih hsf h1
        | some ab => rw [hsf] at h; cases h

theorem s3Match_some_shaped {r : Str} {m : Str × Option Str}
    (h : s3Match (str "s3://" ++ r) = some m) :
    s3RemainderShaped r ∨
      (r.getLast? = some '\n' ∧ s3RemainderShaped r.dropLast) := by
  simp only [s3Match, stripLead_append] at h
  split at h
  next hsf =>
    have hmem : '/' ∉ r := splitFirst_none_not_mem hsf
    split at h
    · cases h
    next hemp =>
      refine Or.inl ⟨r.length, by simp, ?_, ?_, Or.inl (by simp)⟩
      · simpa using fun he => hemp (by rw [he]; rfl)
      · simpa using hmem
  next b t hsf =>
    obtain ⟨hr, hnb⟩ := splitFirst_eq_some hsf
    split at h
    · cases h
    next hbe =>
      have hbne : b ≠ [] := fun he => hbe (by rw [he]; rfl)
      have htake : r.take b.length = b := by rw [hr]; exact List.take_left b ('/' :: t)
      have hdrop : r.drop b.length = '/' :: t := by rw [hr]; exact List.drop_left b ('/' :: t)
      have hlen : b.length ∈ Finset.range (r.length + 1) := by
        rw [hr]
        simp [Nat.lt_succ_iff]
      split at h
      next hte =>
        have ht : t = [] := by
          cases t with
          | nil => rfl
          | cons a as => cases hte
        exact Or.inl ⟨b.length, hlen, by rw [htake]; exact hbne,
          by rw [htake]; exact hnb, Or.inr (Or.inl (by rw [hdrop, ht]))⟩
      next hte =>
        split at h
        next htn =>
          subst htn
          have hr2 : r = (b ++ ['/']) ++ ['\n'] := by rw [hr]; simp
          refine Or.inr ⟨by rw [hr2]; exact List.getLast?_concat _, ?_⟩
          have hdl : r.dropLast = b ++ ['/'] := by rw [hr2]; exact List.dropLast_concat
          rw [hdl]
          refine ⟨b.length,
            by simp only [Finset.mem_range, List.length_append]; omega,
            ?_, ?_, Or.inr (Or.inl ?_)⟩
          · rw [List.take_left b ['/']]; exact hbne
          · rw [List.take_left b ['/']]; exact hnb
          · rw [List.drop_left b ['/']]
        next htn =>
          split at h
          next hsp =>
            have htne : t ≠ [] := by
              cases t with
              | nil => exact absurd rfl hte
              | cons a as => exact List.cons_ne_nil a as
            refine Or.inl ⟨b.length, hlen, by rw [htake]; exact hbne,
              by rw [htake]; exact hnb,
              Or.inr (Or.inr ⟨by rw [hdrop]; rfl, ?_, ?_⟩)⟩
            · rw [hdrop]; exact htne
            · rw [hdrop]
              intro c hc
              have hcc := List.all_eq_true.1 hsp c hc
              simpa using hcc
          next =>
            split at h
            next hnl =>
              obtain ⟨hgl, hdsp⟩ := hnl
              have htt : t.dropLast ++ ['\n'] = t :=
                List.dropLast_append_getLast? '\n' (Option.mem_def.2 hgl)
              have hune : t.dropLast ≠ [] := by
                intro he
                exact htn (by rw [← htt, he]; rfl)
              have hr2 : r = (b ++ '/' :: t.dropLast) ++ ['\n'] := by
                rw [hr, ← htt]
                simp
              refine Or.inr ⟨by rw [hr2]; exact List.getLast?_concat _, ?_⟩
              have hdl : r.dropLast = b ++ '/' :: t.dropLast := by
                rw [hr2]; exact List.dropLast_concat
              rw [hdl]
              refine ⟨b.length,
                by simp only [Finset.mem_range, List.length_append, List.length_cons]; omega,
                ?_, ?_, Or.inr (Or.inr ⟨?_, ?_, ?_⟩)⟩
              · rw [List.take_left b ('/' :: t.dropLast)]; exact hbne
              · rw [List.take_left b ('/' :: t.dropLast)]; exact hnb
              · rw [List.drop_left b ('/' :: t.dropLast)]; rfl
              · rw [List.drop_left b ('/' :: t.dropLast)]; exact hune
              · rw [List.drop_left b ('/' :: t.dropLast)]
                intro c hc
                have hcc := List.all_eq_true.1 hdsp c hc
                simpa using hcc
            next => cases h

/-- C10 counterexample: the remainder `b/k` followed by one trailing newline
does not match the claim's pattern (its key part `k\n` is not
whitespace-free), yet Python's `$` matches just before a trailing newline,
so the URL regex *does* match: `parse_s3_url` returns the object descriptor
`{s3, object, [b, k]}` instead of raising the claimed `AttributeError`. -/
theorem s3_url_trailing_newline_cex :
    ¬ s3RemainderShaped (str "b/k" ++ ['\n']) ∧
      s3Match (str "s3://" ++ (str "b/k" ++ ['\n'])) =
        some (str "b", some (str "k")) ∧
      parse_s3_url (str "s3://" ++ (str "b/k" ++ ['\n'])) =
        Except.ok ⟨str "s3", some (str "object"),
          RName.pair (str "b") (str "k"), none⟩ ∧
      determine_resource_type emptyR53 (str "s3://" ++ (str "b/k" ++ ['\n'])) =
        ClassifyOutcome.ok ⟨str "s3", some (str "object"),
          RName.pair (str "b") (str "k"), none⟩ := by
  decide

/-- C10 (amended): for every identifier `s3://<rest>` whose remainder does
not match the pattern of a non-empty slash-free bucket optionally followed
by `/` and a whitespace-free key — *and* does not fall into the one escape
Python's `$` adds, namely the same pattern followed by a single trailing
newline — the URL regex yields no match and `parse_s3_url` raises an
unhandled `AttributeError` on the `None` match object, so classification
neither returns a descriptor nor terminates through the exit-status-2
classification-failure path. -/
theorem s3_url_regex_crash (env : R53Env) (r : Str)
    (hshape : ¬ (s3RemainderShaped r ∨
      (r.getLast? = some '\n' ∧ s3RemainderShaped r.dropLast))) :
    s3Match (str "s3://" ++ r) = none ∧
      determine_resource_type env (str "s3://" ++ r) =
        ClassifyOutcome.exc PyExc.attributeErrorNoneType ∧
      (∀ res, determine_resource_type env (str "s3://" ++ r) ≠
        ClassifyOutcome.ok res) ∧
      determine_resource_type env (str "s3://" ++ r) ≠
        ClassifyOutcome.exitCode 2 := by
  have hnone : s3Match (str "s3://" ++ r) = none := by
    cases hm : s3Match (str "s3://" ++ r) with
    | none => rfl
    | some m => exact absurd (s3Match_some_shaped hm) hshape
  have harn : stripLead (str "arn:") (str "s3://" ++ r) = none := rfl
  have hdet : determine_resource_type env (str "s3://" ++ r) =
      ClassifyOutcome.exc PyExc.attributeErrorNoneType := by
    simp [determine_resource_type, harn, stripLead_append, parse_s3_url, hnone]
  refine ⟨hnone, hdet, fun res hok => ?_, fun hexit => ?_⟩
  · rw [hdet] at hok; cases hok
  · rw [hdet] at hexit; cases hexit

/-- Witness for C10: the remainder `b/a b` (its key contains a space, and it
does not end in a newline) is not shaped as the regex requires, and
classification of `s3://b/a b` raises the `AttributeError`. -/
theorem s3_url_regex_crash_witness :
    s3Match (str "s3://" ++ str "b/a b") = none ∧
      determine_resource_type emptyR53 (str "s3://" ++ str "b/a b") =
        ClassifyOutcome.exc PyExc.attributeErrorNoneType ∧
      (∀ res, determine_resource_type emptyR53 (str "s3://" ++ str "b/a b") ≠
        ClassifyOutcome.ok res) ∧
      determine_resource_type emptyR53 (str "s3://" ++ str "b/a b") ≠
        ClassifyOutcome.exitCode 2 :=
  s3_url_regex_crash emptyR53 (str "b/a b") (by decide)

/-- C6 counterexample: `s3://` has an empty bucket segment; the claim
predicts a malformed-S3-URL classification error, but classification raises
an unhandled `AttributeError` (interpreter exit status 1), not the
exit-status-2 classification failure. -/
theorem s3_empty_bucket_cex :
    determine_resource_type emptyR53 (str "s3://") =
        ClassifyOutcome.exc PyExc.attributeErrorNoneType ∧
      determine_resource_type emptyR53 (str "s3://") ≠ ClassifyOutcome.exitCode 2 ∧
      processExit (determine_resource_type emptyR53 (str "s3://")) = some 1 := by
  decide

/-- C6 (amended): `s3://<bucket>` and `s3://<bucket>/` with a non-empty
slash-free bucket classify as `{s3, bucket, <bucket>}`;
`s3://<bucket>/<key>` with a non-empty, whitespace-free key classifies as
`{s3, object, [<bucket>, <key>]}` where the key is everything after the
first `/`; and an identifier whose bucket segment is empty makes
`parse_s3_url` raise an unhandled `AttributeError` instead of a handled
malformed-URL classification error. -/
theorem parse_s3_url_spec :
    (∀ b : Str, b ≠ [] → '/' ∉ b →
      parse_s3_url (str "s3://" ++ b) =
        Except.ok ⟨str "s3", some (str "bucket"), RName.str b, none⟩) ∧
    (∀ b : Str, b ≠ [] → '/' ∉ b →
      parse_s3_url (str "s3://" ++ (b ++ ['/'])) =
        Except.ok ⟨str "s3", some (str "bucket"), RName.str b, none⟩) ∧
    (∀ b k : Str, b ≠ [] → '/' ∉ b → k ≠ [] →
      k.all (fun c => !isPySpace c) = true →
      parse_s3_url (str "s3://" ++ (b ++ '/' :: k)) =
        Except.ok ⟨str "s3", some (str "object"), RName.pair b k, none⟩) ∧
    (∀ t : Str, t = [] ∨ t.head? = some '/' →
      parse_s3_url (str "s3://" ++ t) = Except.error PyExc.attributeErrorNoneType) := by
  refine ⟨?_, ?_, ?_, ?_⟩
  · intro b hne hnb
    simp [parse_s3_url, s3Match, stripLead_append, splitFirst_eq_none hnb,
      isEmpty_eq_false_of_ne hne]
  · intro b hne hnb
    have hsf : splitFirst '/' (b ++ ['/']) = some (b, []) := splitFirst_append hnb
    simp [parse_s3_url, s3Match, stripLead_append, hsf, isEmpty_eq_false_of_ne hne]
  · intro b k hbne hnb hkne hsp
    have hsf : splitFirst '/' (b ++ '/' :: k) = some (b, k) := splitFirst_append hnb
    have hk1 : k ≠ ['\n'] := fun he => absurd (he ▸ hsp) (by decide)
    simp [parse_s3_url, s3Match, stripLead_append, hsf, isEmpty_eq_false_of_ne hbne,
      isEmpty_eq_false_of_ne hkne, hk1, hsp]
  · intro t ht
    rcases ht with ht | ht
    · subst ht
      decide
    · cases t with
      | nil => cases ht
      | cons c cs =>
        have hc : c = '/' := by simpa using ht
        subst hc
        have hsf : splitFirst '/' ('/' :: cs) = some ([], cs) := by
          simp [splitFirst]
        simp [parse_s3_url, s3Match, stripLead_append, hsf]

/-- Witness for C6: the amended theorem applied to the spec's own example
`s3://my-bucket/path/to/key`. -/
theorem parse_s3_url_spec_witness :
    parse_s3_url (str "s3://" ++ (str "my-bucket" ++ '/' :: str "path/to/key")) =
      Except.ok ⟨str "s3", some (str "object"),
        RName.pair (str "my-bucket") (str "path/to/key"), none⟩ :=
  parse_s3_url_spec.2.2.1 (str "my-bucket") (str "path/to/key")
    (by decide) (by decide) (by decide) (by decide)

/-! ## C3: the EC2 instance attribute allow-list -/

theorem map_fst_filter_mem (l : AttrRec) :
    (l.filter (fun p => p.1 ∈ filtered_attributes)).map Prod.fst =
      (l.map Prod.fst).filter (fun k => k ∈ filtered_attributes) := by
  induction l with
  | nil => rfl
  | cons p ps ih =>
    by_cases hm : p.1 ∈ filtered_attributes
    · simp [List.filter_cons, hm, ih]
    · simp [List.filter_cons, hm, ih]

/-- C3 counterexample: describing an instance whose underlying record holds
only `InstanceType` with `full = false` yields a mapping whose key list is
just `[InstanceType]` — the allow-listed key `VpcId` is absent, so the key
set is not "exactly the five allow-listed keys" for every record. -/
theorem describe_instance_filter_cex :
    (describe_ec2_resource sparseInstanceEnv
        ⟨str "ec2", some (str "instance"), RName.str (str "i-1"), none⟩ false).map
        Prod.fst = [str "InstanceType"] ∧
      str "VpcId" ∉ (describe_ec2_resource sparseInstanceEnv
        ⟨str "ec2", some (str "instance"), RName.str (str "i-1"), none⟩ false).map
        Prod.fst := by
  decide

/-- C3 (amended): with `full = true` the instance record is returned
unfiltered; with `full = false` the result's key list is the record's key
list filtered by the five-key allow-list — so a key appears in the result
exactly when the record contains it and it is allow-listed, and the key set
is exactly the five allow-listed keys whenever the record contains all
five. -/
theorem describe_instance_filter (env : AwsEnv) (nm : Str) :
    describe_ec2_resource env
        ⟨str "ec2", some (str "instance"), RName.str nm, none⟩ true =
      env.instanceRecord ∧
    (describe_ec2_resource env
        ⟨str "ec2", some (str "instance"), RName.str nm, none⟩ false).map Prod.fst =
      (env.instanceRecord.map Prod.fst).filter (fun k => k ∈ filtered_attributes) ∧
    ((∀ k ∈ filtered_attributes, k ∈ env.instanceRecord.map Prod.fst) →
      ∀ k, k ∈ (describe_ec2_resource env
          ⟨str "ec2", some (str "instance"), RName.str nm, none⟩ false).map Prod.fst ↔
        k ∈ filtered_attributes) := by
  have hfilter : describe_ec2_resource env
      ⟨str "ec2", some (str "instance"), RName.str nm, none⟩ false =
      env.instanceRecord.filter (fun p => p.1 ∈ filtered_attributes) := by
    simp [describe_ec2_resource]
  have hfull : describe_ec2_resource env
      ⟨str "ec2", some (str "instance"), RName.str nm, none⟩ true =
      env.instanceRecord := by
    simp [describe_ec2_resource]
  refine ⟨hfull, ?_, ?_⟩
  · rw [hfilter]
    exact map_fst_filter_mem env.instanceRecord
  · intro hall k
    rw [hfilter, map_fst_filter_mem env.instanceRecord]
    constructor
    · intro hk
      have hm := List.mem_filter.1 hk
      simpa using hm.2
    · intro hk
      exact List.mem_filter.2 ⟨hall k hk, by simpa using hk⟩

/-- Witness for C3: the amended theorem at the sample environment, whose
instance record holds all five allow-listed keys plus two extras. -/
theorem describe_instance_filter_witness :
    ∀ k, k ∈ (describe_ec2_resource sampleEnv
        ⟨str "ec2", some (str "instance"), RName.str (str "i-1"), none⟩ false).map
        Prod.fst ↔ k ∈ filtered_attributes :=
  (describe_instance_filter sampleEnv (str "i-1")).2.2 (by decide)

/-! ## C5: S3 bucket tag fetching -/

/-- C5 counterexample: a bucket-tagging failure that is *not* a not-found
condition — an `AccessDenied` `ClientError` — is also swallowed: the bucket
is still printed with `tags = {}` instead of the failure propagating as an
error, because the `except` clause catches every `ClientError`. -/
theorem bucket_tags_swallow_cex :
    describe_resource accessDeniedEnv
        ⟨str "s3", some (str "bucket"), RName.str (str "mk-flacs"), none⟩ false =
      DescribeOutcome.printedBucket
        ⟨RName.str (str "mk-flacs"), str "us-east-1", str "Disabled",
          TagsVal.emptyDict⟩ := by
  decide

/-- C5 (amended): when describing an s3 bucket, *every* `ClientError` raised
by the tagging call (the not-found condition included) is swallowed and the
result's tags field defaults to the empty mapping; only a non-`ClientError`
exception of the tagging call propagates as an error. -/
theorem bucket_tags_on_client_error (env : AwsEnv) (nm : RName) (full : Bool) :
    (∀ code, env.s3.tagging = Except.error (PyExc.clientError code) →
      describe_resource env ⟨str "s3", some (str "bucket"), nm, none⟩ full =
        DescribeOutcome.printedBucket
          ⟨nm, s3Region env.s3, (env.s3.versioningStatus).getD (str "Disabled"),
            TagsVal.emptyDict⟩) ∧
    (∀ ts, env.s3.tagging = Except.ok ts →
      describe_resource env ⟨str "s3", some (str "bucket"), nm, none⟩ full =
        DescribeOutcome.printedBucket
          ⟨nm, s3Region env.s3, (env.s3.versioningStatus).getD (str "Disabled"),
            TagsVal.tagSet ts⟩) ∧
    (∀ msg, env.s3.tagging = Except.error (PyExc.otherException msg) →
      describe_resource env ⟨str "s3", some (str "bucket"), nm, none⟩ full =
        DescribeOutcome.exc (PyExc.otherException msg)) := by
  have h1 : ¬ (str "s3" = str "ec2") := by decide
  refine ⟨fun code htag => ?_, fun ts htag => ?_, fun msg htag => ?_⟩ <;>
    simp [describe_resource, s3BucketName, h1, htag]

/-- Witness for C5: the amended theorem applied to the environment whose
tagging call fails with the not-found `NoSuchTagSet` condition: the bucket
output defaults to empty tags. -/
theorem bucket_tags_on_client_error_witness :
    describe_resource noSuchTagSetEnv
        ⟨str "s3", some (str "bucket"), RName.str (str "mk-flacs"), none⟩ false =
      DescribeOutcome.printedBucket
        ⟨RName.str (str "mk-flacs"), s3Region noSuchTagSetEnv.s3,
          (noSuchTagSetEnv.s3.versioningStatus).getD (str "Disabled"),
          TagsVal.emptyDict⟩ :=
  (bucket_tags_on_client_error noSuchTagSetEnv
    (RName.str (str "mk-flacs")) false).1 (str "NoSuchTagSet") rfl

/-! ## C2: dispatch on unsupported (type, sub_type) combinations -/

/-- C2 counterexample: a descriptor with the unsupported pair
`(rds, db)` — reachable by classifying an rds ARN — makes `describe_resource`
fall through every dispatch branch and return with no output at all: no
error of any kind is raised. -/
theorem describe_unsupported_cex :
    describe_resource sampleEnv
        ⟨str "rds", some (str "db"), RName.str (str "mydb"), none⟩ false =
      DescribeOutcome.noOutput := by
  decide

/-- C2 (amended): there is no unsupported-resource-type error.  An `ec2`
descriptor with an unrecognized sub-type prints the empty mapping; an `s3`
descriptor with a sub-type that is neither `bucket` nor `object` exits with
status 2; a descriptor whose type is none of `ec2`, `s3`, `route53` silently
produces no output. -/
theorem describe_unsupported_behavior (env : AwsEnv) (r : Resource) (full : Bool) :
    (r.type = str "ec2" →
      r.subType ≠ some (str "instance") → r.subType ≠ some (str "subnet") →
      r.subType ≠ some (str "vpc") → r.subType ≠ some (str "volume") →
      r.subType ≠ some (str "snapshot") →
      describe_resource env r full = DescribeOutcome.printedEc2 []) ∧
    (r.type = str "s3" → r.subType ≠ some (str "bucket") →
      r.subType ≠ some (str "object") → r.name ≠ RName.str [] →
      describe_resource env r full = DescribeOutcome.exitCode 2) ∧
    (r.type ≠ str "ec2" → r.type ≠ str "s3" → r.type ≠ str "route53" →
      describe_resource env r full = DescribeOutcome.noOutput) := by
  have h1 : ¬ (str "s3" = str "ec2") := by decide
  refine ⟨fun hty h2 h3 h4 h5 h6 => ?_, fun hty hb ho hn => ?_, fun ht1 ht2 ht3 => ?_⟩
  · simp [describe_resource, hty, describe_ec2_resource, h2, h3, h4, h5, h6]
  · cases hname : r.name with
    | str s =>
      cases s with
      | nil => exact absurd hname hn
      | cons c cs => simp [describe_resource, hty, h1, s3BucketName, hb, ho, hname]
    | pair b k => simp [describe_resource, hty, h1, s3BucketName, hb, ho, hname]
  · simp [describe_resource, ht1, ht2, ht3]

/-- Witness for C2: the amended theorem applied to an `ec2` descriptor with
the unrecognized sub-type `banana`: the result is the printed empty
mapping. -/
theorem describe_unsupported_behavior_witness :
    describe_resource sampleEnv
        ⟨str "ec2", some (str "banana"), RName.str (str "x"), none⟩ false =
      DescribeOutcome.printedEc2 [] :=
  (describe_unsupported_behavior sampleEnv
      ⟨str "ec2", some (str "banana"), RName.str (str "x"), none⟩ false).1
    rfl (by decide) (by decide) (by decide) (by decide) (by decide)

/-! ## C8: Route 53 resolution -/

theorem stripLead_self (p : Str) : stripLead p p = some [] := by
  have h := stripLead_append p []
  rwa [List.append_nil] at h

theorem endsWith_refl (s : Str) : endsWith s s = true := by
  unfold endsWith
  rw [stripLead_self]
  rfl

theorem isEmpty_map {α β : Type} (f : α → β) (l : List α) :
    (l.map f).isEmpty = l.isEmpty := by
  cases l <;> rfl

theorem dictInsert_fresh {d : List (Str × Str)} {k : Str} (v : Str)
    (h : ∀ p ∈ d, p.1 ≠ k) : dictInsert d k v = d ++ [(k, v)] := by
  induction d with
  | nil => rfl
  | cons p ps ih =>
    obtain ⟨k0, v0⟩ := p
    have hk : k0 ≠ k := h (k0, v0) (List.mem_cons_self _ _)
    simp [dictInsert, hk, ih (fun q hq => h q (List.mem_cons_of_mem _ hq))]

theorem foldl_dictInsert (l : List HostedZone) (d : List (Str × Str))
    (hd : ∀ p ∈ d, ∀ z ∈ l, p.1 ≠ z.zname)
    (hl : (l.map HostedZone.zname).Nodup) :
    l.foldl (fun d z => dictInsert d z.zname z.zid) d =
      d ++ l.map (fun z => (z.zname, z.zid)) := by
  induction l generalizing d with
  | nil => simp
  | cons z zs ih =>
    simp only [List.foldl_cons]
    have hfresh : ∀ p ∈ d, p.1 ≠ z.zname := fun p hp => hd p hp z (List.mem_cons_self _ _)
    rw [dictInsert_fresh z.zid hfresh]
    simp only [List.map_cons, List.nodup_cons] at hl
    have hd' : ∀ p ∈ d ++ [(z.zname, z.zid)], ∀ z' ∈ zs, p.1 ≠ z'.zname := by
      intro p hp z' hz'
      rcases List.mem_append.1 hp with h1 | h1
      · exact hd p h1 z' (List.mem_cons_of_mem _ hz')
      · have hp' : p = (z.zname, z.zid) := by simpa using h1
        rw [hp']
        intro he
        have he' : z.zname = z'.zname := he
        exact hl.1 (by rw [he']; exact List.mem_map_of_mem _ hz')
    rw [ih (d ++ [(z.zname, z.zid)]) hd' hl.2]
    simp

theorem matchedZones_eq (env : R53Env) (dotted : Str)
    (hnd : (env.zones.map HostedZone.zname).Nodup) :
    matchedZones env dotted =
      (env.zones.filter fun z => endsWith z.zname dotted).map
        (fun z => (z.zname, z.zid)) := by
  unfold matchedZones
  rw [foldl_dictInsert _ [] (by intro p hp; cases hp)
    (List.Nodup.sublist (List.Sublist.map _ (List.filter_sublist _)) hnd)]
  rfl

theorem dictLookup_map_find (l : List HostedZone) (k : Str) :
    dictLookup (l.map fun z => (z.zname, z.zid)) k =
      (l.find? fun z => z.zname = k).map HostedZone.zid := by
  induction l with
  | nil => rfl
  | cons z zs ih =>
    by_cases h : z.zname = k
    · simp [dictLookup, List.find?_cons, h]
    · simp [dictLookup, List.find?_cons, h, ih]

theorem head_filter_find (p : RecordSet → Bool) (l : List RecordSet) :
    (l.filter p).head? = l.find? p := by
  induction l with
  | nil => rfl
  | cons a as ih =>
    by_cases h : p a
    · simp [List.filter_cons, h, List.find?_cons]
    · simp [List.filter_cons, h, List.find?_cons, ih]

theorem findRecord_eq_spec (env : R53Env) (dotted : Str) (l : List HostedZone) :
    findRecord env dotted (l.map fun z => (z.zname, z.zid)) =
      specFirstHit env dotted l := by
  induction l with
  | nil => rfl
  | cons z zs ih =>
    simp only [List.map_cons, findRecord, specFirstHit, head_filter_find, ih]

theorem find_filter_of_imp {p q : HostedZone → Bool} (l : List HostedZone)
    (h : ∀ z, q z = true → p z = true) :
    (l.filter p).find? q = l.find? q := by
  induction l with
  | nil => rfl
  | cons z zs ih =>
    by_cases hp : p z
    · by_cases hq : q z
      · simp [List.filter_cons, hp, List.find?_cons, hq]
      · simp [List.filter_cons, hp, List.find?_cons, hq, ih]
    · have hq : q z = false := by
        cases hqz : q z with
        | false => rfl
        | true => exact absurd (h z hqz) (by simpa using hp)
      simp [List.filter_cons, hp, List.find?_cons, hq, ih]

/-- C8: with the listed hosted-zone set held fixed (and zone names, which AWS
keys zones by, distinct), `possible_route53_resource` behaves exactly as the
claim describes: it appends a trailing dot if absent, returns a
`hosted_zone` descriptor with the matching zone's ID on an exact name match,
otherwise scans the suffix-matching candidate zones in iteration order and
returns a `record` descriptor at the first record whose name equals the
dotted name, and otherwise yields no resource (which the caller turns into a
classification failure). -/
theorem possible_route53_eq_spec (env : R53Env) (name : Str)
    (hnd : (env.zones.map HostedZone.zname).Nodup) :
    possible_route53_resource env name = resolveRoute53Spec env name := by
  simp only [possible_route53_resource, resolveRoute53Spec]
  rw [matchedZones_eq env _ hnd, dictLookup_map_find, findRecord_eq_spec,
    find_filter_of_imp _ (fun z hz => by
      have hz' : z.zname = dottedOf name := of_decide_eq_true hz
      rw [hz']
      exact endsWith_refl _)]
  cases hf : List.find? (fun z => z.zname = dottedOf name) env.zones with
  | some z => rfl
  | none => simp [isEmpty_map]

/-- Witness for C8: the equivalence applied to the concrete environment with
zones `example.com.` and `other.org.` and the record `www.example.com.`,
resolving the name `www.example.com`. -/
theorem possible_route53_eq_spec_witness :
    possible_route53_resource wwwEnv (str "www.example.com") =
      resolveRoute53Spec wwwEnv (str "www.example.com") :=
  possible_route53_eq_spec wwwEnv (str "www.example.com") (by decide)

end DescribeAws
